import Mathlib

/-!
Verification of the dev-dashboard telemetry and installer pipeline
(`src/main.rs`) against its natural-language specification.

The Rust source is shallowly embedded below.  Rust `f32`/`f64` quantities
are modelled as real numbers (`ℝ`) where the properties are analytic
(exponential smoothing) and as rationals (`ℚ`) where witnesses must
evaluate (rates, progress fractions).  Rust `u64` counters are modelled as
`Nat` with explicit saturation at `2 ^ 64 - 1`.  Rust string primitives
(`to_lowercase`, `contains`, `starts_with`, `replace`) are implemented as
structurally recursive functions over the character list of a `String`, so
that every probe evaluates inside the kernel.
-/

namespace DevDash

/-- Model of Rust `str::starts_with`: `startsWithSeq pat s` is true when
`pat` is an initial segment of `s`. -/
def startsWithSeq : List Char → List Char → Bool
  | [], _ => true
  | _ :: _, [] => false
  | a :: as, b :: bs => a == b && startsWithSeq as bs

/-- Model of Rust `str::contains(pattern)`: `containsSeq pat s` is true when
`pat` occurs contiguously somewhere in `s`. -/
def containsSeq (pat : List Char) : List Char → Bool
  | [] => startsWithSeq pat []
  | c :: t => startsWithSeq pat (c :: t) || containsSeq pat t

/-- Model of Rust `str::replace(pat, rep)` (all non-overlapping occurrences,
left to right).  The fuel argument makes the recursion structural; it is
instantiated with the length of the subject string, which bounds the number
of steps. -/
def replaceFuel : Nat → List Char → List Char → List Char → List Char
  | 0, s, _, _ => s
  | _ + 1, [], _, _ => []
  | f + 1, c :: t, pat, rep =>
    if pat ≠ [] && startsWithSeq pat (c :: t) then
      rep ++ replaceFuel f (List.drop pat.length (c :: t)) pat rep
    else
      c :: replaceFuel f t pat rep

/-- Rust `str::to_lowercase` restricted to the ASCII names used by the
program. -/
def strToLower (s : String) : String := ⟨s.data.map Char.toLower⟩

/-- Rust `str::contains(&str)` on `String`. -/
def strContainsStr (s pat : String) : Bool := containsSeq pat.data s.data

/-- Rust `str::starts_with(&str)` on `String`. -/
def strStartsWithStr (s pat : String) : Bool := startsWithSeq pat.data s.data

/-- Rust `str::replace` on `String`. -/
def strReplace (s pat rep : String) : String :=
  ⟨replaceFuel s.data.length s.data pat.data rep.data⟩

/-- Rust `str::contains(char)` on `String`. -/
def strContainsChar (s : String) (c : Char) : Bool := s.data.contains c

/-- Embedding of `fn lerp(start: f32, end: f32, t: f32) -> f32` from
`src/main.rs` (the Rust parameter `end` is renamed `stop`, `end` being a
Lean keyword).  `t.clamp(0.0, 1.0)` is `min (max t 0) 1`. -/
noncomputable def lerp (start stop t : ℝ) : ℝ := start + (stop - start) * min (max t 0) 1

/-- Embedding of `struct AnimatedValue { current: f32, target: f32 }`
(named `SmoothedValue` in the specification). -/
structure AnimatedValue where
  current : ℝ
  target : ℝ

/-- Embedding of `AnimatedValue::new`. -/
def AnimatedValue.new (value : ℝ) : AnimatedValue := ⟨value, value⟩

/-- Embedding of `AnimatedValue::update`:
`smoothing = 1.0 - (-8.0 * delta_time).exp()` and
`current = lerp(current, target, smoothing)`. -/
noncomputable def AnimatedValue.update (v : AnimatedValue) (delta_time : ℝ) : AnimatedValue :=
  let smoothing := 1 - Real.exp (-8 * delta_time)
  { v with current := lerp v.current v.target smoothing }

/-- Embedding of `AnimatedValue::set_target`. -/
def AnimatedValue.set_target (v : AnimatedValue) (target : ℝ) : AnimatedValue :=
  { v with target := target }

/-- Embedding of `DevDashboard::is_physical_interface` from `src/main.rs`. -/
def is_physical_interface (name : String) : Bool :=
  let name_lower := strToLower name
  strContainsStr name_lower "ethernet" ||
  strStartsWithStr name_lower "eth" ||
  strStartsWithStr name_lower "en" ||
  strStartsWithStr name_lower "wlan" ||
  strStartsWithStr name_lower "wi-fi" ||
  strStartsWithStr name_lower "wireless" ||
  strContainsStr name_lower "wireless"

/-- Rust `u64::saturating_add` on the `Nat` model of `u64`. -/
def u64sat (a b : Nat) : Nat := min (a + b) (2 ^ 64 - 1)

/-- Embedding of `struct NetworkStats` (the specification's
`DifferentialCounter`, one instance per direction packed in one struct, as
in the source).  Byte counters are `u64` (modelled as `Nat`), speeds are
`f64` (modelled as `ℚ`), and `last_update: Instant` is a time in seconds
(modelled as `ℚ`). -/
structure NetworkStats where
  total_received : Nat
  total_sent : Nat
  last_received : Nat
  last_sent : Nat
  received_speed : ℚ
  sent_speed : ℚ
  last_update : ℚ

/-- Seeding of a freshly tracked interface in `DevDashboard::default` and in
the 1-second refresh: totals and last readings start from the first
observed reading, speeds at zero. -/
def seedNetworkStats (received sent : Nat) (now : ℚ) : NetworkStats :=
  { total_received := received
    total_sent := sent
    last_received := received
    last_sent := sent
    received_speed := 0
    sent_speed := 0
    last_update := now }

/-- The counter-reset delta rule of the network refresh: if the new
cumulative reading is below the recorded one the counter was reset and the
reading itself is the increment. -/
def resetDelta (last current : Nat) : Nat :=
  if current < last then current else current - last

/-- Embedding of the per-interface body of the 100 ms network refresh in
`DevDashboard::update` (`src/main.rs` lines 1136-1166): computes elapsed
time, applies the reset-aware deltas, updates speeds and saturating
totals only when `elapsed > 0`, and records the new readings and timestamp
unconditionally. -/
def updateNetworkStats (stats : NetworkStats) (current_received current_sent : Nat)
    (now : ℚ) : NetworkStats :=
  let elapsed := now - stats.last_update
  if 0 < elapsed then
    let received_diff :=
      if current_received < stats.last_received then current_received
      else current_received - stats.last_received
    let sent_diff :=
      if current_sent < stats.last_sent then current_sent
      else current_sent - stats.last_sent
    { total_received := u64sat stats.total_received received_diff
      total_sent := u64sat stats.total_sent sent_diff
      last_received := current_received
      last_sent := current_sent
      received_speed := (received_diff : ℚ) / elapsed
      sent_speed := (sent_diff : ℚ) / elapsed
      last_update := now }
  else
    { stats with
      last_received := current_received
      last_sent := current_sent
      last_update := now }

/-- Embedding of the CPU branch of the 1-second refresh in
`DevDashboard::update` (`src/main.rs` lines 1178-1187): an empty CPU list
yields `0.0`, otherwise the mean of the per-core usages capped by
`.min(100.0)`. -/
noncomputable def cpuTarget (usages : List ℝ) : ℝ :=
  match usages.length with
  | 0 => 0
  | _ + 1 => min (usages.sum / (usages.length : ℝ)) 100

/-- Embedding of `struct NiniteApp` (the specification's `AppDescriptor`). -/
structure NiniteApp where
  name : String
  category : String
  ninite_id : String
  registry_keys : List String
  file_paths : List String
  installed : Bool
deriving DecidableEq

/-- The two registry views probed by `check_installation`
(`KEY_WOW64_64KEY` and `KEY_WOW64_32KEY`). -/
inductive RegView
  | v64
  | v32
deriving DecidableEq

/-- One subkey of an uninstall registry subtree, as read by
`check_installation`: its `DisplayName` value and optional
`InstallLocation` value. -/
structure UninstallEntry where
  displayName : String
  installLocation : Option String
deriving DecidableEq

/-- The external collaborators consulted by `NiniteApp::check_installation`:
the current user name, registry key existence under `HKLM`/`HKCU` in both
views, file-system probes, glob resolution (`none` models a glob error,
`some entries` the `Ok` entries), and the two uninstall subtrees.
`isRegularFile p` models `p` existing as a regular file (the source checks
`exists() && is_file()` on the direct branch and `metadata(..).is_file()`
on the glob branch); `isDirectory p` models `p` existing as a directory. -/
structure ProbeEnv where
  username : String
  hklmKeyOk : String → RegView → Bool
  hkcuKeyOk : String → RegView → Bool
  isRegularFile : String → Bool
  globResolve : String → Option (List String)
  isDirectory : String → Bool
  uninstallNative : List UninstallEntry
  uninstallWow64 : List UninstallEntry

/-- The registry probe of `check_installation`: any configured key path
present under either root in either view. -/
def registrySignal (env : ProbeEnv) (app : NiniteApp) : Bool :=
  app.registry_keys.any fun key_path =>
    [RegView.v64, RegView.v32].any fun view =>
      env.hklmKeyOk key_path view || env.hkcuKeyOk key_path view

/-- The `%USERNAME%` substitution applied to each configured path. -/
def expandUserPath (env : ProbeEnv) (path : String) : String :=
  strReplace path "%USERNAME%" env.username

/-- The file probe of `check_installation`: after `%USERNAME%` expansion,
a path containing a wildcard is resolved through glob (a match counts only
if it is a regular file, a glob error counts as not found), and a plain
path is checked for existence as a regular file. -/
def fileSignal (env : ProbeEnv) (app : NiniteApp) : Bool :=
  app.file_paths.any fun path =>
    let expanded_path := expandUserPath env path
    if strContainsChar expanded_path '*' then
      match env.globResolve expanded_path with
      | some entries => entries.any env.isRegularFile
      | none => false
    else
      env.isRegularFile expanded_path

/-- The scan of one uninstall subtree in `check_installation`: the first
subkey whose display name contains the application name (case-insensitive)
decides the subtree; it counts only if its declared install location, when
present, exists as a directory (otherwise the closure returns `false`
immediately, ending the scan). -/
def uninstallScan (env : ProbeEnv) (appName : String) : List UninstallEntry → Bool
  | [] => false
  | entry :: rest =>
    if strContainsStr (strToLower entry.displayName) (strToLower appName) then
      match entry.installLocation with
      | some loc => env.isDirectory loc
      | none => true
    else uninstallScan env appName rest

/-- The uninstall-registry probe: the native subtree, then the WOW64
subtree. -/
def uninstallSignal (env : ProbeEnv) (app : NiniteApp) : Bool :=
  uninstallScan env app.name env.uninstallNative ||
  uninstallScan env app.name env.uninstallWow64

/-- Embedding of `NiniteApp::check_installation` (`src/main.rs` lines
240-366): all three signals are computed, and the stored verdict is
`installed = file_installed` ("Mark as installed if the executable is
found, regardless of registry keys"). -/
def check_installation (env : ProbeEnv) (app : NiniteApp) : NiniteApp :=
  let registry_installed := registrySignal env app
  let file_installed := fileSignal env app
  let uninstall_installed := uninstallSignal env app
  let _ := registry_installed
  let _ := uninstall_installed
  { app with installed := file_installed }

/-- Embedding of `enum InstallerState`. -/
inductive InstallerState
  | idle
  | downloading
  | installing
  | error (msg : String)
deriving DecidableEq

/-- Embedding of `enum InstallerMessage` (the specification's
`ProgressMessage`); `errorMsg` is the source's `InstallerMessage::Error`. -/
inductive InstallerMessage
  | updateProgress (progress : ℚ)
  | setState (state : InstallerState)
  | errorMsg (msg : String)
deriving DecidableEq

/-- Embedding of `enum InstallerError`. -/
inductive InstallerError
  | noAppsSelected
  | downloadFailed (msg : String)
  | channelError (msg : String)
deriving DecidableEq

/-- The `Display` implementation of `InstallerError`, used when the task
wrapper forwards a failure over the channel via `e.to_string()`. -/
def InstallerError.display : InstallerError → String
  | .noAppsSelected => "No apps selected"
  | .downloadFailed msg => "Download failed: " ++ msg
  | .channelError msg => "Communication error: " ++ msg

/-- One event of the response body stream: a delivered chunk of `len`
bytes together with the outcome of the `file.write_all` on it, or a
transport error from the stream (`chunk.map_err(ReqwestErrorWrapper)?`,
which converts to `InstallerError::DownloadFailed` carrying the transport
message). -/
inductive ChunkEvent
  | ok (len : Nat) (writeOk : Bool)
  | transportErr (msg : String)
deriving DecidableEq

/-- The observable behaviour of one HTTP GET: status, status text (used in
the `DownloadFailed` message), optional content length, and the body
stream. -/
structure HttpResponse where
  statusSuccess : Bool
  statusText : String
  contentLength : Option Nat
  chunks : List ChunkEvent
deriving DecidableEq

/-- The environment of one `download_ninite_installer` run: its arguments
plus the behaviour of the external collaborators (network, file system,
process spawning).  `response` is the result of `client.get(url).send()`
(`Except.error` is a transport failure whose message reaches
`DownloadFailed`).  The boolean flags give the outcomes of the individual
file-system and process operations; best-effort deletes (`let _ =
remove_file`) on the failure paths are modelled as succeeding, while
`finalRemoveOk` is the outcome of the logged post-install cleanup. -/
structure DownloadEnv where
  selected_apps : List String
  ninite_apps : List NiniteApp
  response : Except String HttpResponse
  initialFileExists : Bool
  removeExistingOk : Bool
  createOk : Bool
  createErrMsg : String
  writeErrMsg : String
  spawnOk : Bool
  spawnErrMsg : String
  waitOk : Bool
  waitErrMsg : String
  finalRemoveOk : Bool

/-- The composed download URL (`src/main.rs` lines 963-973): resolvable
selected names map to their installer ids, joined with `-`. -/
def niniteUrl (selected_apps : List String) (ninite_apps : List NiniteApp) : String :=
  let app_ids := selected_apps.filterMap fun n =>
    (ninite_apps.find? fun app => app.name == n).map fun app => app.ninite_id
  "https://ninite.com/" ++ String.intercalate "-" app_ids ++ "/ninite.exe"

/-- Result of the streaming loop over the response body. -/
inductive ChunkOutcome
  | completed (downloaded : Nat)
  | transportFailed (msg : String)
  | writeFailed
deriving DecidableEq

/-- The `while let Some(chunk) = stream.next()` loop of
`download_ninite_installer`: a transport error propagates immediately via
`?` (no cleanup on that path); a successful write advances `downloaded`
and, when `total_size > 0`, emits `UpdateProgress(downloaded/total_size)`;
a write failure stops the loop (the caller deletes the partial file). -/
def chunkLoop (total_size : Nat) :
    List ChunkEvent → Nat → List InstallerMessage →
    List InstallerMessage × ChunkOutcome
  | [], downloaded, msgs => (msgs, .completed downloaded)
  | .transportErr m :: _, _, msgs => (msgs, .transportFailed m)
  | .ok len writeOk :: rest, downloaded, msgs =>
    if writeOk then
      let downloaded' := downloaded + len
      let msgs' :=
        if 0 < total_size then
          msgs ++ [.updateProgress ((downloaded' : ℚ) / (total_size : ℚ))]
        else msgs
      chunkLoop total_size rest downloaded' msgs'
    else
      (msgs, .writeFailed)

/-- The observable outcome of one run: the messages sent over the channel
in order, whether a file exists at the target path `ninite.exe`
afterwards, whether the HTTP request was issued, and the returned
result. -/
structure RunOutcome where
  msgs : List InstallerMessage
  fileExists : Bool
  networkCalled : Bool
  result : Except InstallerError Unit

/-- Embedding of `DevDashboard::download_ninite_installer` (`src/main.rs`
lines 952-1083), with channel sends modelled as always delivered (the
receiver is alive for the whole run).  Control flow follows the source:
empty-selection guard, `SetState(Downloading)`, request, status check,
removal of a pre-existing file, file creation, the streaming loop,
`SetState(Installing)`, spawn and wait, cleanup, `SetState(Idle)`. -/
def download_ninite_installer (env : DownloadEnv) : RunOutcome :=
  if env.selected_apps.isEmpty then
    { msgs := []
      fileExists := env.initialFileExists
      networkCalled := false
      result := .error .noAppsSelected }
  else
    let msgs0 : List InstallerMessage := [.setState .downloading]
    match env.response with
    | .error m =>
      { msgs := msgs0
        fileExists := env.initialFileExists
        networkCalled := true
        result := .error (.downloadFailed m) }
    | .ok resp =>
      if resp.statusSuccess = false then
        { msgs := msgs0
          fileExists := env.initialFileExists
          networkCalled := true
          result := .error (.downloadFailed ("Server returned: " ++ resp.statusText)) }
      else
        let total_size := resp.contentLength.getD 0
        if env.initialFileExists && !env.removeExistingOk then
          { msgs := msgs0
            fileExists := true
            networkCalled := true
            result := .error (.downloadFailed
              "Could not remove existing installer file. Please close any running installers and try again.") }
        else if !env.createOk then
          { msgs := msgs0
            fileExists := false
            networkCalled := true
            result := .error (.downloadFailed
              ("Could not create installer file: " ++ env.createErrMsg)) }
        else
          match chunkLoop total_size resp.chunks 0 msgs0 with
          | (msgs, .transportFailed m) =>
            { msgs := msgs
              fileExists := true
              networkCalled := true
              result := .error (.downloadFailed m) }
          | (msgs, .writeFailed) =>
            { msgs := msgs
              fileExists := false
              networkCalled := true
              result := .error (.downloadFailed
                ("Failed to write installer: " ++ env.writeErrMsg)) }
          | (msgs, .completed _) =>
            let msgs1 := msgs ++ [.setState .installing]
            if !env.spawnOk then
              { msgs := msgs1
                fileExists := false
                networkCalled := true
                result := .error (.downloadFailed
                  ("Failed to launch installer: " ++ env.spawnErrMsg)) }
            else if !env.waitOk then
              { msgs := msgs1
                fileExists := false
                networkCalled := true
                result := .error (.downloadFailed
                  ("Failed to wait for installer: " ++ env.waitErrMsg)) }
            else
              { msgs := msgs1 ++ [.setState .idle]
                fileExists := !env.finalRemoveOk
                networkCalled := true
                result := .ok () }

/-- The spawned task wrapper around the pipeline (`src/main.rs` lines
880-889): on failure the error's display string is forwarded over the
channel as `InstallerMessage::Error`. -/
def installer_task (env : DownloadEnv) : RunOutcome :=
  let r := download_ninite_installer env
  match r.result with
  | .error e => { r with msgs := r.msgs ++ [.errorMsg e.display] }
  | .ok _ => r

/-- Running totals of a list of chunk sizes starting from `acc`:
the values of `downloaded` observed after each successful chunk write. -/
def cumSums : List Nat → Nat → List Nat
  | [], _ => []
  | l :: ls, acc => (acc + l) :: cumSums ls (acc + l)

lemma exp_factor_nonneg (dt : ℝ) (hdt : 0 ≤ dt) : 0 ≤ 1 - Real.exp (-8 * dt) := by
  have h : Real.exp (-8 * dt) ≤ Real.exp 0 := Real.exp_le_exp.mpr (by linarith)
  rw [Real.exp_zero] at h
  linarith

lemma exp_factor_le_one (dt : ℝ) : 1 - Real.exp (-8 * dt) ≤ 1 := by
  have := Real.exp_pos (-8 * dt)
  linarith

lemma animated_update_current (v : AnimatedValue) (dt : ℝ) (hdt : 0 ≤ dt) :
    (v.update dt).current
      = v.current + (v.target - v.current) * (1 - Real.exp (-8 * dt)) := by
  have h0 := exp_factor_nonneg dt hdt
  have h1 := exp_factor_le_one dt
  simp only [AnimatedValue.update, lerp]
  rw [max_eq_left h0, min_eq_left h1]

/-- Claim C2: for `dt ≥ 0`, `AnimatedValue::update` moves `current` to a
point between the old `current` and `target` inclusive, strictly closer to
`target` when `dt > 0` and `current ≠ target`, leaves `current` unchanged
when `dt = 0`, and the interpolation factor `1 - exp(-8*dt)` lies in
`[0, 1]`. -/
theorem animated_update_no_overshoot (v : AnimatedValue) (dt : ℝ) (hdt : 0 ≤ dt) :
    ((v.update dt).current ∈ Set.Icc (min v.current v.target) (max v.current v.target)) ∧
    (0 < dt → v.current ≠ v.target →
      |(v.update dt).current - v.target| < |v.current - v.target|) ∧
    (dt = 0 → (v.update dt).current = v.current) ∧
    (1 - Real.exp (-8 * dt) ∈ Set.Icc (0 : ℝ) 1) := by
  have h0 := exp_factor_nonneg dt hdt
  have h1 := exp_factor_le_one dt
  have hcur := animated_update_current v dt hdt
  refine ⟨?_, ?_, ?_, h0, h1⟩
  · rw [hcur]
    constructor
    · rcases le_total v.current v.target with h | h
      · rw [min_eq_left h]
        nlinarith [mul_nonneg (sub_nonneg.mpr h) h0]
      · rw [min_eq_right h]
        nlinarith [mul_nonneg (sub_nonneg.mpr h) h0]
    · rcases le_total v.current v.target with h | h
      · rw [max_eq_right h]
        nlinarith [mul_nonneg (sub_nonneg.mpr h) h0]
      · rw [max_eq_left h]
        nlinarith [mul_nonneg (sub_nonneg.mpr h) h0]
  · intro hdt' hne
    have hexp_pos : 0 < Real.exp (-8 * dt) := Real.exp_pos _
    have hlt : Real.exp (-8 * dt) < 1 := by
      have h : Real.exp (-8 * dt) < Real.exp 0 := Real.exp_lt_exp.mpr (by linarith)
      rwa [Real.exp_zero] at h
    have hdiff : (v.update dt).current - v.target
        = (v.current - v.target) * Real.exp (-8 * dt) := by
      rw [hcur]; ring
    rw [hdiff, abs_mul, abs_of_pos hexp_pos]
    have habs : 0 < |v.current - v.target| := abs_pos.mpr (sub_ne_zero.mpr hne)
    nlinarith [mul_lt_mul_of_pos_left hlt habs]
  · intro hzero
    subst hzero
    rw [hcur]
    norm_num [Real.exp_zero]

/-- Witness for C2 at `current = 0`, `target = 1`, `dt = 1`. -/
theorem animated_update_no_overshoot_witness :
    (AnimatedValue.update ⟨0, 1⟩ 1).current
      ∈ Set.Icc (min (0 : ℝ) 1) (max (0 : ℝ) 1) :=
  (animated_update_no_overshoot ⟨0, 1⟩ 1 zero_le_one).1

/-- Counterexample to claim C5: the interface named `"vEthernet (WSL)"` IS
matched by `DevDashboard::is_physical_interface` (its lowercase form
contains `"ethernet"`), so it is not excluded as the claim states. -/
theorem vethernet_wsl_matches_heuristics :
    is_physical_interface "vEthernet (WSL)" = true := by decide

/-- Amended claim C5: the name filter includes `"vEthernet (WSL)"` (its
lowercase form contains `"ethernet"`) as well as `"Ethernet"` and
`"Wi-Fi"`, and accepts exactly the names whose lowercase form contains
`"ethernet"`, starts with `"eth"`, `"en"`, `"wlan"`, `"wi-fi"`, or
`"wireless"`, or contains `"wireless"`. -/
theorem physical_interface_characterization :
    is_physical_interface "vEthernet (WSL)" = true ∧
    is_physical_interface "Ethernet" = true ∧
    is_physical_interface "Wi-Fi" = true ∧
    ∀ name : String,
      is_physical_interface name = true ↔
        (strContainsStr (strToLower name) "ethernet" = true ∨
         strStartsWithStr (strToLower name) "eth" = true ∨
         strStartsWithStr (strToLower name) "en" = true ∨
         strStartsWithStr (strToLower name) "wlan" = true ∨
         strStartsWithStr (strToLower name) "wi-fi" = true ∨
         strStartsWithStr (strToLower name) "wireless" = true ∨
         strContainsStr (strToLower name) "wireless" = true) := by
  refine ⟨by decide, by decide, by decide, ?_⟩
  intro name
  simp [is_physical_interface, Bool.or_eq_true, or_assoc]

/-- Claim C9: each network-refresh call records the new readings and the
current timestamp unconditionally, and when the elapsed time is not
positive it changes nothing else (speeds and totals keep their values). -/
theorem counter_bookkeeping_unconditional :
    (∀ (stats : NetworkStats) (c_recv c_sent : Nat) (now : ℚ),
      (updateNetworkStats stats c_recv c_sent now).last_received = c_recv ∧
      (updateNetworkStats stats c_recv c_sent now).last_sent = c_sent ∧
      (updateNetworkStats stats c_recv c_sent now).last_update = now) ∧
    (∀ (stats : NetworkStats) (c_recv c_sent : Nat) (now : ℚ),
      now - stats.last_update ≤ 0 →
      (updateNetworkStats stats c_recv c_sent now).received_speed = stats.received_speed ∧
      (updateNetworkStats stats c_recv c_sent now).sent_speed = stats.sent_speed ∧
      (updateNetworkStats stats c_recv c_sent now).total_received = stats.total_received ∧
      (updateNetworkStats stats c_recv c_sent now).total_sent = stats.total_sent) := by
  constructor
  · intro stats c_recv c_sent now
    simp only [updateNetworkStats]
    split <;> simp
  · intro stats c_recv c_sent now h
    simp only [updateNetworkStats]
    rw [if_neg (not_lt.mpr h)]
    exact ⟨rfl, rfl, rfl, rfl⟩

/-- Witness for C9 with `now` equal to the recorded timestamp (elapsed
time `0`). -/
theorem counter_bookkeeping_unconditional_witness :
    (updateNetworkStats (seedNetworkStats 100 0 0) 150 0 0).received_speed
      = (seedNetworkStats 100 0 0).received_speed :=
  (counter_bookkeeping_unconditional.2 (seedNetworkStats 100 0 0) 150 0 0
    (by norm_num [seedNetworkStats])).1

/-- Claim C3: with positive elapsed time `e`, a refresh applies
`delta = c - last_reading` when `c ≥ last_reading` and `delta = c`
otherwise, sets `rate = delta / e`, and accumulates
`total = saturating_add(total, delta)`; the reading sequence
`[100, 150, 140, 200]` at one-second intervals produces the deltas
`[50, 140, 60]` and those rates. -/
theorem differential_counter_delta_rate_total :
    (∀ (stats : NetworkStats) (c_recv c_sent : Nat) (now : ℚ),
      0 < now - stats.last_update →
      (updateNetworkStats stats c_recv c_sent now).received_speed
          = (resetDelta stats.last_received c_recv : ℚ) / (now - stats.last_update) ∧
      (updateNetworkStats stats c_recv c_sent now).sent_speed
          = (resetDelta stats.last_sent c_sent : ℚ) / (now - stats.last_update) ∧
      (updateNetworkStats stats c_recv c_sent now).total_received
          = u64sat stats.total_received (resetDelta stats.last_received c_recv) ∧
      (updateNetworkStats stats c_recv c_sent now).total_sent
          = u64sat stats.total_sent (resetDelta stats.last_sent c_sent)) ∧
    (let s0 := seedNetworkStats 100 0 0
     let s1 := updateNetworkStats s0 150 0 1
     let s2 := updateNetworkStats s1 140 0 2
     let s3 := updateNetworkStats s2 200 0 3
     s1.total_received - s0.total_received = 50 ∧
     s2.total_received - s1.total_received = 140 ∧
     s3.total_received - s2.total_received = 60 ∧
     s1.received_speed = 50 ∧ s2.received_speed = 140 ∧ s3.received_speed = 60) := by
  constructor
  · intro stats c_recv c_sent now h
    simp only [updateNetworkStats, resetDelta]
    rw [if_pos h]
    simp
  · norm_num [updateNetworkStats, seedNetworkStats, u64sat]

/-- Witness for C3: the first step of the reading sequence, elapsed time
`1`. -/
theorem differential_counter_delta_rate_total_witness :
    (updateNetworkStats (seedNetworkStats 100 0 0) 150 0 1).received_speed
      = (resetDelta (seedNetworkStats 100 0 0).last_received 150 : ℚ)
        / ((1 : ℚ) - (seedNetworkStats 100 0 0).last_update) :=
  (differential_counter_delta_rate_total.1 (seedNetworkStats 100 0 0) 150 0 1
    (by norm_num [seedNetworkStats])).1

/-- Claim C10: the CPU refresh is total in the number of cores: an empty
CPU list gives target `0`, a non-empty list gives the mean usage capped at
`100`, and `set_target` stores exactly that value. -/
theorem cpu_refresh_total_mean :
    (cpuTarget [] = 0) ∧
    (∀ usages : List ℝ, usages ≠ [] →
      cpuTarget usages = min (usages.sum / (usages.length : ℝ)) 100) ∧
    (∀ (v : AnimatedValue) (usages : List ℝ),
      (v.set_target (cpuTarget usages)).target = cpuTarget usages) := by
  refine ⟨rfl, ?_, fun v usages => rfl⟩
  intro usages h
  match usages with
  | [] => exact absurd rfl h
  | a :: t => rfl

/-- Witness for C10 on the one-core list `[150]` (mean `150`, capped at
`100`). -/
theorem cpu_refresh_total_mean_witness :
    cpuTarget [(150 : ℝ)] = min ((150 : ℝ) / 1) 100 := by
  have h := cpu_refresh_total_mean.2.1 [(150 : ℝ)] (by simp)
  simpa using h

/-- Test descriptor for claim C4: path pattern `C:\Apps\Foo\foo.exe`, no
registry probes. -/
def fooApp : NiniteApp :=
  { name := "Foo"
    category := "Test"
    ninite_id := "foo"
    registry_keys := []
    file_paths := ["C:\\Apps\\Foo\\foo.exe"]
    installed := false }

/-- Probe environment for claim C4 in which only `C:\Apps\Foo\foo.exe`
exists as a regular file. -/
def fooEnv : ProbeEnv :=
  { username := "user"
    hklmKeyOk := fun _ _ => false
    hkcuKeyOk := fun _ _ => false
    isRegularFile := fun p => p == "C:\\Apps\\Foo\\foo.exe"
    globResolve := fun _ => none
    isDirectory := fun _ => false
    uninstallNative := []
    uninstallWow64 := [] }

/-- The same environment after the file has been removed. -/
def fooEnvRemoved : ProbeEnv :=
  { fooEnv with isRegularFile := fun _ => false }

/-- A variant of `fooEnv` whose registry and uninstall probes all fire,
with identical file-system answers. -/
def fooEnvRegistryHit : ProbeEnv :=
  { fooEnv with
    hklmKeyOk := fun _ _ => true
    hkcuKeyOk := fun _ _ => true
    uninstallNative := [{ displayName := "Foo", installLocation := none }] }

/-- Claim C4: `check_installation` stores `installed = file_signal`: the
file probe alone determines the verdict, environments that agree on the
file-system probes produce the same verdict whatever the registry answers,
and on the concrete `C:\Apps\Foo\foo.exe` example the verdict flips with
the file's existence. -/
theorem installed_verdict_is_file_signal :
    (∀ (env : ProbeEnv) (app : NiniteApp),
      (check_installation env app).installed = fileSignal env app) ∧
    (∀ (env env' : ProbeEnv) (app : NiniteApp),
      env.username = env'.username →
      env.isRegularFile = env'.isRegularFile →
      env.globResolve = env'.globResolve →
      (check_installation env app).installed = (check_installation env' app).installed) ∧
    ((check_installation fooEnv fooApp).installed = true) ∧
    ((check_installation fooEnvRemoved (check_installation fooEnv fooApp)).installed = false) := by
  refine ⟨fun env app => rfl, ?_, by decide, by decide⟩
  intro env env' app h1 h2 h3
  simp only [check_installation, fileSignal, expandUserPath, h1, h2, h3]

/-- Witness for C4: the verdict on `fooApp` is unchanged when every
registry and uninstall probe flips from miss to hit. -/
theorem installed_verdict_is_file_signal_witness :
    (check_installation fooEnv fooApp).installed
      = (check_installation fooEnvRegistryHit fooApp).installed :=
  installed_verdict_is_file_signal.2.1 fooEnv fooEnvRegistryHit fooApp rfl rfl rfl

/-- Recognizer for the `InstallerMessage::Error` variant (the
specification's `Failed` message). -/
def isErrorMessage : InstallerMessage → Bool
  | .errorMsg _ => true
  | _ => false

lemma isEmpty_false_of_ne_nil {l : List String} (h : l ≠ []) : l.isEmpty = false := by
  cases l with
  | nil => exact absurd rfl h
  | cons a as => rfl

/-- Claim C7: invoked with an empty selection, the pipeline returns
`NoAppsSelected`, emits no message at all (in particular no state
change), issues no network request, and leaves the target path as it
was. -/
theorem empty_selection_no_effect (env : DownloadEnv) (h : env.selected_apps = []) :
    (download_ninite_installer env).result = .error .noAppsSelected ∧
    (download_ninite_installer env).msgs = [] ∧
    (download_ninite_installer env).networkCalled = false ∧
    (download_ninite_installer env).fileExists = env.initialFileExists := by
  simp [download_ninite_installer, h]

/-- Environment for the C7 witness: an empty selection. -/
def envEmptySelection : DownloadEnv :=
  { selected_apps := []
    ninite_apps := []
    response := .error "request never sent"
    initialFileExists := false
    removeExistingOk := true
    createOk := true
    createErrMsg := ""
    writeErrMsg := ""
    spawnOk := true
    spawnErrMsg := ""
    waitOk := true
    waitErrMsg := ""
    finalRemoveOk := true }

/-- Witness for C7 on a concrete empty-selection environment. -/
theorem empty_selection_no_effect_witness :
    (download_ninite_installer envEmptySelection).result
        = .error .noAppsSelected ∧
    (download_ninite_installer envEmptySelection).msgs = [] ∧
    (download_ninite_installer envEmptySelection).networkCalled = false :=
  ⟨(empty_selection_no_effect envEmptySelection rfl).1,
   (empty_selection_no_effect envEmptySelection rfl).2.1,
   (empty_selection_no_effect envEmptySelection rfl).2.2.1⟩

/-- Claim C8: a non-success HTTP status fails the run with
`DownloadFailed` carrying the status; exactly one `Error` message reaches
the consumer, `SetState(Installing)` is never sent, and the target path is
exactly as before the run (the file is never created on this path). -/
theorem non_success_status_behavior (env : DownloadEnv) (resp : HttpResponse)
    (hsel : env.selected_apps ≠ [])
    (hresp : env.response = .ok resp)
    (hstatus : resp.statusSuccess = false) :
    (installer_task env).result
        = .error (.downloadFailed ("Server returned: " ++ resp.statusText)) ∧
    (installer_task env).msgs
        = [.setState .downloading,
           .errorMsg (InstallerError.display
             (.downloadFailed ("Server returned: " ++ resp.statusText)))] ∧
    ((installer_task env).msgs.filter isErrorMessage).length = 1 ∧
    (InstallerMessage.setState .installing) ∉ (installer_task env).msgs ∧
    (installer_task env).fileExists = env.initialFileExists := by
  have hne := isEmpty_false_of_ne_nil hsel
  simp [installer_task, download_ninite_installer, hne, hresp, hstatus, isErrorMessage]

/-- Environment for the C8 witness: a 404 response. -/
def envNotFound : DownloadEnv :=
  { envEmptySelection with
    selected_apps := ["Chrome"]
    response := .ok { statusSuccess := false
                      statusText := "404 Not Found"
                      contentLength := none
                      chunks := [] } }

/-- Witness for C8 on a concrete 404 environment. -/
theorem non_success_status_behavior_witness :
    (installer_task envNotFound).result
        = .error (.downloadFailed "Server returned: 404 Not Found") ∧
    ((installer_task envNotFound).msgs.filter isErrorMessage).length = 1 ∧
    (InstallerMessage.setState .installing) ∉ (installer_task envNotFound).msgs ∧
    (installer_task envNotFound).fileExists = false := by
  have h := non_success_status_behavior envNotFound
    { statusSuccess := false
      statusText := "404 Not Found"
      contentLength := none
      chunks := [] } (by decide) rfl rfl
  exact ⟨h.1, h.2.2.1, h.2.2.2.1, h.2.2.2.2⟩

/-- Catalog entry used by the concrete pipeline environments. -/
def chromeApp : NiniteApp :=
  { name := "Chrome"
    category := "Web Browsers"
    ninite_id := "chrome"
    registry_keys := []
    file_paths := []
    installed := false }

/-- Environment in which the stream delivers one good chunk and then a
transport error. -/
def envChunkError : DownloadEnv :=
  { selected_apps := ["Chrome"]
    ninite_apps := [chromeApp]
    response := .ok { statusSuccess := true
                      statusText := "200 OK"
                      contentLength := some 10000
                      chunks := [.ok 2500 true, .transportErr "connection reset by peer"] }
    initialFileExists := false
    removeExistingOk := true
    createOk := true
    createErrMsg := ""
    writeErrMsg := ""
    spawnOk := true
    spawnErrMsg := ""
    waitOk := true
    waitErrMsg := ""
    finalRemoveOk := true }

/-- Counterexample to claim C1: when a chunk of the body stream fails with
a transport error after a successful write, the pipeline returns its error
while the partially written installer file is still on disk (that failure
path performs no delete). -/
theorem chunk_transport_error_leaves_artifact :
    (download_ninite_installer envChunkError).result
        = .error (.downloadFailed "connection reset by peer") ∧
    (download_ninite_installer envChunkError).fileExists = true := by
  exact ⟨rfl, rfl⟩

/-- Amended claim C1: after a failure caused by a non-success HTTP status
the target path is exactly as before the run (no file was created); after
a file write error, a process spawn failure, or a process wait failure the
partial artifact is deleted; but after a stream/chunk transport error the
partial artifact file remains on disk. -/
theorem failure_cleanup_per_path (env : DownloadEnv) (resp : HttpResponse)
    (hsel : env.selected_apps ≠ [])
    (hresp : env.response = .ok resp) :
    (resp.statusSuccess = false →
      (download_ninite_installer env).fileExists = env.initialFileExists ∧
      (download_ninite_installer env).result
          = .error (.downloadFailed ("Server returned: " ++ resp.statusText))) ∧
    (resp.statusSuccess = true →
     (env.initialFileExists && !env.removeExistingOk) = false →
     env.createOk = true →
      (∀ m, (chunkLoop (resp.contentLength.getD 0) resp.chunks 0
              [.setState .downloading]).2 = .transportFailed m →
        (download_ninite_installer env).fileExists = true ∧
        (download_ninite_installer env).result = .error (.downloadFailed m)) ∧
      ((chunkLoop (resp.contentLength.getD 0) resp.chunks 0
              [.setState .downloading]).2 = .writeFailed →
        (download_ninite_installer env).fileExists = false ∧
        (download_ninite_installer env).result
            = .error (.downloadFailed ("Failed to write installer: " ++ env.writeErrMsg))) ∧
      (∀ d, (chunkLoop (resp.contentLength.getD 0) resp.chunks 0
              [.setState .downloading]).2 = .completed d →
        (env.spawnOk = false →
          (download_ninite_installer env).fileExists = false ∧
          (download_ninite_installer env).result
              = .error (.downloadFailed ("Failed to launch installer: " ++ env.spawnErrMsg))) ∧
        (env.spawnOk = true → env.waitOk = false →
          (download_ninite_installer env).fileExists = false ∧
          (download_ninite_installer env).result
              = .error (.downloadFailed ("Failed to wait for installer: " ++ env.waitErrMsg))))) := by
  have hne := isEmpty_false_of_ne_nil hsel
  constructor
  · intro hst
    simp [download_ninite_installer, hne, hresp, hst]
  · intro hst hrm hcr
    rcases hc : chunkLoop (resp.contentLength.getD 0) resp.chunks 0
        [.setState .downloading] with ⟨ms, oc⟩
    refine ⟨?_, ?_, ?_⟩
    · intro m hm
      have hoc : oc = ChunkOutcome.transportFailed m := hm
      subst hoc
      simp [download_ninite_installer, hne, hresp, hst, hrm, hcr, hc]
    · intro hm
      have hoc : oc = ChunkOutcome.writeFailed := hm
      subst hoc
      simp [download_ninite_installer, hne, hresp, hst, hrm, hcr, hc]
    · intro d hm
      have hoc : oc = ChunkOutcome.completed d := hm
      subst hoc
      constructor
      · intro hspawn
        simp [download_ninite_installer, hne, hresp, hst, hrm, hcr, hc, hspawn]
      · intro hspawn hwait
        simp [download_ninite_installer, hne, hresp, hst, hrm, hcr, hc, hspawn, hwait]

/-- Environment in which the second chunk's disk write fails. -/
def envWriteError : DownloadEnv :=
  { envChunkError with
    response := .ok { statusSuccess := true
                      statusText := "200 OK"
                      contentLength := some 10000
                      chunks := [.ok 2500 true, .ok 2500 false] }
    writeErrMsg := "disk full" }

/-- Witness for amended C1: after the write failure the partial file is
gone. -/
theorem failure_cleanup_per_path_witness :
    (download_ninite_installer envWriteError).fileExists = false :=
  ((failure_cleanup_per_path envWriteError
      { statusSuccess := true
        statusText := "200 OK"
        contentLength := some 10000
        chunks := [.ok 2500 true, .ok 2500 false] }
      (by decide) rfl).2 rfl rfl rfl).2.1 rfl |>.1

lemma chunkLoop_zero_msgs :
    ∀ (chunks : List ChunkEvent) (d : Nat) (msgs : List InstallerMessage),
      (chunkLoop 0 chunks d msgs).1 = msgs
  | [], _, _ => rfl
  | .transportErr _ :: _, _, _ => rfl
  | .ok len w :: rest, d, msgs => by
    cases w with
    | true => simpa [chunkLoop] using chunkLoop_zero_msgs rest (d + len) msgs
    | false => simp [chunkLoop]

lemma chunkLoop_all_ok (total : Nat) (htotal : 0 < total) :
    ∀ (lens : List Nat) (d : Nat) (msgs : List InstallerMessage),
      chunkLoop total (lens.map fun l => ChunkEvent.ok l true) d msgs
        = (msgs ++ (cumSums lens d).map
            (fun x : Nat => InstallerMessage.updateProgress ((x : ℚ) / (total : ℚ))),
           .completed (d + lens.sum))
  | [], d, msgs => by simp [chunkLoop, cumSums]
  | l :: ls, d, msgs => by
    simp [chunkLoop, cumSums, htotal, chunkLoop_all_ok total htotal ls,
      List.append_assoc, Nat.add_assoc]

lemma cumSums_length : ∀ (ls : List Nat) (a : Nat), (cumSums ls a).length = ls.length
  | [], _ => rfl
  | l :: ls, a => by simp [cumSums, cumSums_length ls (a + l)]

lemma cumSums_mem_le : ∀ (ls : List Nat) (a x : Nat), x ∈ cumSums ls a → x ≤ a + ls.sum
  | [], a, x, h => by simp [cumSums] at h
  | l :: ls, a, x, h => by
    simp only [cumSums, List.mem_cons] at h
    rcases h with h | h
    · subst h
      simp only [List.sum_cons]
      omega
    · have hx := cumSums_mem_le ls (a + l) x h
      simp only [List.sum_cons] at hx ⊢
      omega

lemma cumSums_getLast :
    ∀ (ls : List Nat) (a : Nat), ls ≠ [] → (cumSums ls a).getLast? = some (a + ls.sum)
  | [], _, h => absurd rfl h
  | [l], a, _ => by simp [cumSums]
  | l :: l2 :: ls, a, _ => by
    have ih := cumSums_getLast (l2 :: ls) (a + l) (by simp)
    simp only [cumSums] at ih ⊢
    rw [List.getLast?_cons_cons, ih]
    simp only [List.sum_cons, Option.some.injEq]
    omega

lemma cumSums_chain : ∀ (ls : List Nat) (a : Nat), List.Chain' (· ≤ ·) (cumSums ls a)
  | [], _ => List.chain'_nil
  | [l], a => by simp [cumSums]
  | l :: l2 :: ls, a => by
    have ih := cumSums_chain (l2 :: ls) (a + l)
    simp only [cumSums] at ih ⊢
    exact List.chain'_cons.mpr ⟨Nat.le_add_right _ _, ih⟩

/-- Claim C6: with a known nonzero content length `T` and a stream of
fully written chunks, the run sends, right after `SetState(Downloading)`,
one `UpdateProgress(downloaded/T)` per chunk followed by
`SetState(Installing)`; the fractions are monotonically non-decreasing,
they lie in `[0, 1]` when the body does not exceed `T`, and a complete
download of exactly `T` bytes ends at exactly `1`; with an unknown content
length no `UpdateProgress` is ever sent. -/
theorem progress_updates_monotone :
    (∀ (env : DownloadEnv) (resp : HttpResponse) (lens : List Nat) (T : Nat),
      env.selected_apps ≠ [] →
      env.response = .ok resp →
      resp.statusSuccess = true →
      resp.contentLength = some T →
      0 < T →
      env.initialFileExists = false →
      env.createOk = true →
      resp.chunks = (lens.map fun l => ChunkEvent.ok l true) →
      ((download_ninite_installer env).msgs.take (lens.length + 2)
          = InstallerMessage.setState .downloading
            :: ((cumSums lens 0).map fun x : Nat =>
                  InstallerMessage.updateProgress ((x : ℚ) / (T : ℚ)))
            ++ [InstallerMessage.setState .installing]) ∧
      List.Chain' (· ≤ ·) ((cumSums lens 0).map fun x : Nat => ((x : ℚ) / (T : ℚ))) ∧
      (lens.sum ≤ T →
        ∀ q ∈ (cumSums lens 0).map (fun x : Nat => ((x : ℚ) / (T : ℚ))), 0 ≤ q ∧ q ≤ 1) ∧
      (lens ≠ [] → lens.sum = T →
        ((cumSums lens 0).map (fun x : Nat => ((x : ℚ) / (T : ℚ)))).getLast? = some 1)) ∧
    (∀ (env : DownloadEnv) (resp : HttpResponse),
      env.response = .ok resp →
      resp.contentLength = none →
      ∀ p : ℚ, InstallerMessage.updateProgress p ∉ (download_ninite_installer env).msgs) := by
  constructor
  · intro env resp lens T hsel hresp hst hlen hT hfile hcr hchunks
    have hne := isEmpty_false_of_ne_nil hsel
    have hloop := chunkLoop_all_ok T hT lens 0 [.setState .downloading]
    have hTQ : (0 : ℚ) < (T : ℚ) := by exact_mod_cast hT
    refine ⟨?_, ?_, ?_, ?_⟩
    · have hdl : (download_ninite_installer env).msgs
          = (InstallerMessage.setState .downloading
              :: ((cumSums lens 0).map fun x : Nat =>
                    InstallerMessage.updateProgress ((x : ℚ) / (T : ℚ)))
              ++ [InstallerMessage.setState .installing])
            ++ (if env.spawnOk && env.waitOk then
                  [InstallerMessage.setState .idle] else []) := by
        simp only [download_ninite_installer, hne, hresp, hst, hfile, hcr, hchunks,
          hlen, Option.getD_some]
        rw [hloop]
        cases hspawn : env.spawnOk <;> cases hwait : env.waitOk <;>
          simp [List.append_assoc]
      rw [hdl, List.take_left' (by simp [cumSums_length])]
    · refine List.chain'_map_of_chain' (fun x : Nat => (x : ℚ) / (T : ℚ))
        (fun a b hab => ?_) (cumSums_chain lens 0)
      exact (div_le_div_iff_of_pos_right hTQ).mpr (by exact_mod_cast hab)
    · intro hsum q hq
      simp only [List.mem_map] at hq
      obtain ⟨x, hx, rfl⟩ := hq
      constructor
      · exact div_nonneg (Nat.cast_nonneg x) (le_of_lt hTQ)
      · rw [div_le_one hTQ]
        have hxle := cumSums_mem_le lens 0 x hx
        have : x ≤ T := by omega
        exact_mod_cast this
    · intro hne0 hsumT
      rw [List.getLast?_map, cumSums_getLast lens 0 hne0]
      have hval : (((0 + lens.sum : Nat) : ℚ) / (T : ℚ)) = 1 := by
        rw [Nat.zero_add, hsumT]
        exact div_self (ne_of_gt hTQ)
      simp only [Option.map_some', hval]
  · intro env resp hresp hnone p
    have hzt : resp.contentLength.getD 0 = 0 := by rw [hnone]; rfl
    rcases hc : chunkLoop 0 resp.chunks 0
        [InstallerMessage.setState InstallerState.downloading] with ⟨ms, oc⟩
    have hms : ms = [InstallerMessage.setState InstallerState.downloading] := by
      have h2 := chunkLoop_zero_msgs resp.chunks 0
        [InstallerMessage.setState InstallerState.downloading]
      rw [hc] at h2
      exact h2
    subst hms
    simp only [download_ninite_installer, hresp, hzt, hc]
    split
    · simp
    · split
      · simp
      · split
        · simp
        · split
          · simp
          · cases oc with
            | transportFailed m => simp
            | writeFailed => simp
            | completed d =>
              cases hspawn : env.spawnOk with
              | false => simp [hspawn]
              | true =>
                cases hwait : env.waitOk with
                | false => simp [hspawn, hwait]
                | true => simp [hspawn, hwait]

/-- Environment for the C6 witness: the specification's simulated
download, 10000 bytes of known content length delivered in four
2500-byte chunks. -/
def envTenK : DownloadEnv :=
  { envEmptySelection with
    selected_apps := ["Chrome"]
    ninite_apps := [chromeApp]
    response := .ok { statusSuccess := true
                      statusText := "200 OK"
                      contentLength := some 10000
                      chunks := [.ok 2500 true, .ok 2500 true, .ok 2500 true, .ok 2500 true] } }

/-- Witness for C6: the simulated 10000-byte download in four 2500-byte
chunks yields the progress prefix after `SetState(Downloading)`, ends at
exactly `1`, and is followed by `SetState(Installing)`. -/
theorem progress_updates_monotone_witness :
    ((download_ninite_installer envTenK).msgs.take 6
        = InstallerMessage.setState .downloading
          :: ((cumSums [2500, 2500, 2500, 2500] 0).map fun x : Nat =>
                InstallerMessage.updateProgress ((x : ℚ) / ((10000 : Nat) : ℚ)))
          ++ [InstallerMessage.setState .installing]) ∧
    (((cumSums [2500, 2500, 2500, 2500] 0).map fun x : Nat =>
        ((x : ℚ) / ((10000 : Nat) : ℚ))).getLast? = some 1) := by
  have h := progress_updates_monotone.1 envTenK
    { statusSuccess := true
      statusText := "200 OK"
      contentLength := some 10000
      chunks := [2500, 2500, 2500, 2500].map fun l => ChunkEvent.ok l true }
    [2500, 2500, 2500, 2500] 10000
    (by decide) rfl rfl rfl (by decide) rfl rfl rfl
  exact ⟨h.1, h.2.2.2 (by decide) rfl⟩

end DevDash
